import Mathlib

/-!
Shallow embedding of the xyz-dl podcast downloader (Python) for checking the
natural-language specification against the code.

Source files embedded:
  * `src/auth.py`   — `XiaoyuzhouAuth.refresh_access_token`, `save_credentials`
  * `src/api.py`    — `XiaoyuzhouAPI._make_request_with_retry`, `get_episode_info`,
                      `get_episodes_page`, `update_credentials`
  * `src/downloader.py` — `get_all_episodes`, `download`, `download_podcast`,
                      `download_file`, `_download_file_attempt`
  * `src/utils.py`  — `extract_episode_id_from_url`, `extract_podcast_id_from_url`,
                      `detect_input_type`

Machine-level state (HTTP, file system) is made explicit: the network is an
oracle giving the response to the i-th request, and the file system is a map
from path strings to optional byte lists.
-/

namespace XyzDl

/-! ## Session / credential model (`src/auth.py`, `src/api.py`)

The combined mutable state of one `XiaoyuzhouAuth` object together with the
`XiaoyuzhouAPI` object it owns.  `auth*` fields are the attributes of
`XiaoyuzhouAuth`; `api*` fields are `XiaoyuzhouAPI.access_token` /
`device_id`; `session*` fields are the `x-jike-access-token` /
`x-jike-device-id` entries of `XiaoyuzhouAPI.session.headers`;
`savedCreds` is the content of the persisted credentials JSON file. -/

structure SavedCreds where
  access_token : String
  refresh_token : Option String
  device_id : String
  deriving Repr, DecidableEq

structure SysState where
  authAccessToken : Option String
  authRefreshToken : Option String
  authDeviceId : Option String
  apiAccessToken : Option String
  apiDeviceId : Option String
  sessionAccessToken : Option String
  sessionDeviceId : Option String
  savedCreds : Option SavedCreds
  deriving Repr, DecidableEq

/-- `XiaoyuzhouAPI.update_credentials` (api.py lines 284-292): sets the api
object's `access_token` / `device_id` attributes and the session headers.
The code passes `self.device_id` of the auth object, which may be `None`. -/
def update_credentials (access_token : String) (device_id : Option String)
    (s : SysState) : SysState :=
  { s with apiAccessToken := some access_token
           apiDeviceId := device_id
           sessionAccessToken := some access_token
           sessionDeviceId := device_id }

/-- `XiaoyuzhouAuth.save_credentials` (auth.py lines 72-94): writes the
credentials file only when both `access_token` and `device_id` are present
(truthy); otherwise the file is left unchanged and `False` is returned. -/
def save_credentials (s : SysState) : Bool × SysState :=
  match s.authAccessToken, s.authDeviceId with
  | some a, some d =>
      (true, { s with savedCreds := some ⟨a, s.authRefreshToken, d⟩ })
  | _, _ => (false, s)

/-- Outcome of the single HTTP POST to the token-refresh endpoint inside
`refresh_access_token`: either a raised network exception, or a response
with a status code and the optional `x-jike-access-token` /
`x-jike-refresh-token` fields of its JSON body. -/
inductive RefreshOutcome where
  | exn : RefreshOutcome
  | httpResp (status : Nat) (newAccess newRefresh : Option String) : RefreshOutcome
  deriving Repr, DecidableEq

/-- `XiaoyuzhouAuth.refresh_access_token` (auth.py lines 202-256).
Returns the boolean result together with the state after the call. -/
def refresh_access_token (s : SysState) (resp : RefreshOutcome) : Bool × SysState :=
  match s.authRefreshToken with
  | none => (false, s)
  | some _ =>
    match resp with
    | .exn => (false, s)
    | .httpResp status newAccess newRefresh =>
      if status = 200 then
        match newAccess with
        | none => (false, s)
        | some a =>
          let s1 := { s with authAccessToken := some a
                             authRefreshToken :=
                               match newRefresh with
                               | some r => some r
                               | none => s.authRefreshToken }
          let s2 := update_credentials a s1.authDeviceId s1
          let s3 := (save_credentials s2).2
          (true, s3)
      else (false, s)

/-- A refresh-endpoint outcome that fails for a reason other than yielding a
new access token: a raised network exception, a non-200 status, or a 200
response whose body lacks `x-jike-access-token`. -/
def refreshFailureResponse : RefreshOutcome → Bool
  | .exn => true
  | .httpResp status newAccess _ => status ≠ 200 || newAccess.isNone

/-! ## Transport client (`src/api.py`)

`_make_request_with_retry` issues its requests through
`self.session.request(method, url, **kwargs)`.  We model the network as an
oracle `statuses : Nat → Nat` giving the HTTP status of the i-th request
issued by the call, and the token-refresh endpoint by a `RefreshOutcome`.

The access token actually carried by a request is determined by the
`requests` library's header merge: per-request `headers=` entries override
the session headers on key conflict.  `overrideToken` is the
`x-jike-access-token` entry of the per-request `headers=` kwarg (absent for
endpoints that pass no such header). -/

/-- The `x-jike-access-token` value effectively sent on one
`session.request(...)` call: a per-request header wins over the session
header. -/
def effectiveToken (overrideToken : Option String) (sessionToken : Option String) :
    Option String :=
  match overrideToken with
  | some t => some t
  | none => sessionToken

/-- Trace of one `_make_request_with_retry` call: the access tokens carried
by the issued requests in order, the status of the response returned to
the caller, the number of calls to `auth_handler.refresh_access_token`,
and the state after the call. -/
structure CallTrace where
  sentTokens : List (Option String)
  result : Nat
  refreshAttempts : Nat
  state : SysState
  deriving Repr, DecidableEq

/-- `XiaoyuzhouAPI._make_request_with_retry` (api.py lines 48-72).
`hasHandler` models `self.auth_handler and hasattr(self.auth_handler,
'refresh_access_token')` (the downloader always sets the auth object as
handler, `auth.py` line 25).  `overrideToken` is the access-token entry of
the per-request `headers=` kwarg, captured once by the caller and reused
verbatim on the retry, exactly as `**kwargs` is in the code. -/
def make_request_with_retry (hasHandler : Bool) (overrideToken : Option String)
    (statuses : Nat → Nat) (refreshResp : RefreshOutcome) (s : SysState) : CallTrace :=
  let tok1 := effectiveToken overrideToken s.sessionAccessToken
  let st1 := statuses 0
  if st1 ≠ 401 then
    { sentTokens := [tok1], result := st1, refreshAttempts := 0, state := s }
  else if hasHandler then
    let (ok, s') := refresh_access_token s refreshResp
    if ok then
      let tok2 := effectiveToken overrideToken s'.sessionAccessToken
      { sentTokens := [tok1, tok2], result := statuses 1,
        refreshAttempts := 1, state := s' }
    else
      { sentTokens := [tok1], result := st1, refreshAttempts := 1, state := s' }
  else
    { sentTokens := [tok1], result := st1, refreshAttempts := 0, state := s }

/-- `XiaoyuzhouAPI.get_episode_info` (api.py lines 232-256): builds a
per-request `headers` dict whose `x-jike-access-token` entry is
`self.access_token` captured at call time (omitted when it is `None`),
then delegates to `_make_request_with_retry`. -/
def get_episode_info (statuses : Nat → Nat) (refreshResp : RefreshOutcome)
    (s : SysState) : CallTrace :=
  make_request_with_retry true s.apiAccessToken statuses refreshResp s

/-- `XiaoyuzhouAPI.get_private_media_url` (api.py lines 258-282): same
header construction as `get_episode_info`. -/
def get_private_media_url (statuses : Nat → Nat) (refreshResp : RefreshOutcome)
    (s : SysState) : CallTrace :=
  make_request_with_retry true s.apiAccessToken statuses refreshResp s

/-- The request-issuing part of `XiaoyuzhouAPI.get_episodes_page` (api.py
lines 208-230): passes only `json=payload`, no per-request headers, so the
session headers alone determine the token sent. -/
def get_episodes_page_request (statuses : Nat → Nat) (refreshResp : RefreshOutcome)
    (s : SysState) : CallTrace :=
  make_request_with_retry true none statuses refreshResp s

/-! ## Catalog harvester (`src/downloader.py`, `get_all_episodes`)

The listing endpoint is modelled as an oracle `pages : Nat → PageResult`
giving the outcome of the i-th `get_episodes_page` call of the run: either
a failure (`result["success"]` false, or a raised exception — both hit the
same `break`) or the `data['data']` item list of a successful response.
`get_all_episodes` calls `get_episodes_page(pid, load_more_key)` with the
default `limit=25` (api.py line 208). -/

/-- The fields of one episode record that `get_all_episodes` reads:
`eid` and `pubDate` (for the next `loadMoreKey`). -/
structure Episode where
  eid : String
  pubDate : String
  deriving Repr, DecidableEq

/-- The `loadMoreKey` dict built at downloader.py lines 310-315. -/
structure LoadMoreKey where
  direction : String
  pubDate : String
  id : String
  deriving Repr, DecidableEq

/-- Outcome of one `get_episodes_page` call as seen by the harvest loop. -/
inductive PageResult where
  | failure : PageResult
  | page (items : List Episode) : PageResult
  deriving Repr

/-- The `limit` sent with every page request (`get_episodes_page` default,
api.py line 208). -/
def requestedPageLimit : Nat := 25

structure HarvestResult where
  episodes : List Episode
  requests : Nat
  deriving Repr, DecidableEq

/-- Loop body of `get_all_episodes` (downloader.py lines 279-322).
`fuel` bounds the unbounded `while True` loop (every theorem below is
about runs that terminate within the given fuel); `reqs` counts the page
requests issued so far, `acc` is `all_episodes`, `key` is `load_more_key`. -/
def get_all_episodes_aux (pages : Nat → PageResult) (maxEpisodes : Option Nat) :
    Nat → Nat → List Episode → Option LoadMoreKey → HarvestResult
  | 0, reqs, acc, _ => ⟨acc, reqs⟩
  | fuel + 1, reqs, acc, _ =>
    match pages reqs with
    | .failure => ⟨acc, reqs + 1⟩
    | .page items =>
      if items.isEmpty then ⟨acc, reqs + 1⟩
      else
        let acc' := acc ++ items
        -- `if max_episodes and len(all_episodes) >= max_episodes:` —
        -- `max_episodes` must be truthy (set and nonzero)
        let maxHit : Bool := match maxEpisodes with
          | some m => decide (0 < m) && decide (m ≤ acc'.length)
          | none => false
        if maxHit then ⟨acc'.take (maxEpisodes.getD 0), reqs + 1⟩
        -- `if len(episodes) < 15:` — hard-coded threshold in the source
        else if items.length < 15 then ⟨acc', reqs + 1⟩
        else
          -- `episodes[-1]`; this branch is only reached with `items` nonempty
          let last := items.getLast?.getD ⟨"", ""⟩
          let key' : Option LoadMoreKey := some ⟨"NEXT", last.pubDate, last.eid⟩
          get_all_episodes_aux pages maxEpisodes fuel (reqs + 1) acc' key'

/-- `XiaoyuzhouDownloader.get_all_episodes` (downloader.py lines 271-328). -/
def get_all_episodes (pages : Nat → PageResult) (maxEpisodes : Option Nat)
    (fuel : Nat) : HarvestResult :=
  get_all_episodes_aux pages maxEpisodes fuel 0 [] none

/-- The episode sequence `download_podcast` (downloader.py lines 456-481)
hands to `download_episodes_sequential` for transfer: `none` when the
harvested list is empty (the method returns early with `None`), otherwise
the reversed list (oldest first). -/
def download_podcast_sequence (episodes : List Episode) : Option (List Episode) :=
  if episodes.isEmpty then none else some episodes.reverse

/-- `XiaoyuzhouDownloader.download` (downloader.py lines 585-603), reduced
to its data flow: harvest, then feed the harvested list to
`download_podcast`.  Returns the harvest result together with the episode
sequence actually submitted for transfer. -/
def download_operation (pages : Nat → PageResult) (maxEpisodes : Option Nat)
    (fuel : Nat) : HarvestResult × Option (List Episode) :=
  let r := get_all_episodes pages maxEpisodes fuel
  (r, download_podcast_sequence r.episodes)

/-- Concrete episode lists for the pagination scenarios: `mkEpisodes k n`
is `n` distinct episodes numbered from `k`. -/
def mkEpisodes (k n : Nat) : List Episode :=
  (List.range n).map (fun j => ⟨Nat.repr (k + j), Nat.repr (k + j)⟩)

/-! ## Transfer engine (`src/downloader.py`, `download_file` /
`_download_file_attempt`)

The file system is a map from path strings to optional byte contents
(bytes as `Nat`).  The remote resource is a byte list `content`; a request
carrying `Range: bytes=N-` is served `content.drop N` (HTTP 206
semantics), a request with no range header is served all of `content`.
The streaming loop reads the body in chunks of `chunk_size`; a network or
disk fault during one attempt is modelled by `AttemptEnv.interrupted k`
(exception after `k` chunks have been written), `AttemptEnv.httpError`
models `raise_for_status` raising before the output file is opened. -/

def FS : Type := String → Option (List Nat)

/-- `filepath.with_suffix(filepath.suffix + '.tmp')` (downloader.py line
162): appending `.tmp` to the existing suffix re-appends the old suffix,
so the provisional path is the destination path with `.tmp` appended. -/
def tmpPath (dest : String) : String := dest ++ ".tmp"

/-- Split a list into chunks of `n` (the order `response.iter_content`
yields the body in). -/
def chunksOf (n : Nat) (l : List Nat) : List (List Nat) :=
  if l.isEmpty ∨ n = 0 then []
  else l.take n :: chunksOf n (l.drop n)
termination_by l.length
decreasing_by
  rename_i h
  simp only [not_or, List.isEmpty_iff] at h
  have hn : 0 < n := Nat.pos_of_ne_zero h.2
  have hl : 0 < l.length := List.length_pos.mpr h.1
  simpa using Nat.sub_lt hl hn

/-- File-system events performed by one attempt, in order. -/
inductive FSEvent where
  | write (path : String) (bytes : List Nat) : FSEvent
  | rename (src dst : String) : FSEvent
  deriving Repr, DecidableEq

/-- Environment of one `_download_file_attempt` call. -/
inductive AttemptEnv where
  /-- the GET returned an error status: `raise_for_status` raises before
  the output file is opened. -/
  | httpError : AttemptEnv
  /-- an exception (connection drop, timeout, disk error) after `k` chunks
  of the body have been written. -/
  | interrupted (k : Nat) : AttemptEnv
  /-- the body streams to completion. -/
  | complete : AttemptEnv
  deriving Repr, DecidableEq

structure AttemptTrace where
  /-- the `Range` start offset sent with the GET, `none` when no range
  header was sent. -/
  rangeStart : Option Nat
  /-- file-system events performed, in order. -/
  events : List FSEvent
  /-- `true` iff the attempt returned `True` (no exception). -/
  success : Bool
  fs : FS

/-- `XiaoyuzhouDownloader._download_file_attempt` (downloader.py lines
159-224). -/
def download_file_attempt (content : List Nat) (dest : String)
    (chunkSize : Nat) (env : AttemptEnv) (fs : FS) : AttemptTrace :=
  let tmp := tmpPath dest
  -- lines 162-168: resume position and range header from the partial file
  let resume : Option Nat := (fs tmp).map List.length
  let served := match resume with
    | some n => content.drop n
    | none => content
  match env with
  | .httpError =>
      -- `response.raise_for_status()` raises: no file was opened
      { rangeStart := resume, events := [], success := false, fs := fs }
  | .interrupted k =>
      -- line 202: mode 'ab' iff the range header was sent and the partial
      -- file exists, else 'wb' (truncating open)
      let base := match resume with
        | some _ => (fs tmp).getD []
        | none => []
      let chunks := (chunksOf chunkSize served).take k
      let written := base ++ chunks.flatten
      { rangeStart := resume,
        events := chunks.map (fun c => FSEvent.write tmp c),
        success := false,
        fs := fun p => if p = tmp then some written else fs p }
  | .complete =>
      let base := match resume with
        | some _ => (fs tmp).getD []
        | none => []
      let chunks := chunksOf chunkSize served
      let final := base ++ chunks.flatten
      -- line 212: `temp_filepath.rename(filepath)` after the last chunk
      { rangeStart := resume,
        events := chunks.map (fun c => FSEvent.write tmp c) ++ [FSEvent.rename tmp dest],
        success := true,
        fs := fun p => if p = dest then some final
                       else if p = tmp then none else fs p }

/-- All write events of the list target path `p`. -/
def writesOnlyTo (p : String) (events : List FSEvent) : Bool :=
  events.all (fun e => match e with
    | .write q _ => q == p
    | .rename _ _ => true)

structure DownloadResult where
  success : Bool
  /-- number of GET requests issued for this file. -/
  requests : Nat
  fs : FS

/-- Retry loop of `download_file` (downloader.py lines 144-157):
`for attempt in range(max_retries + 1)`, each attempt issuing one GET;
an exception on the last attempt yields `False`. `envs i` is the
environment of the i-th attempt. -/
def download_file_loop (content : List Nat) (dest : String) (chunkSize : Nat)
    (envs : Nat → AttemptEnv) : Nat → Nat → FS → DownloadResult
  | 0, reqs, fs => ⟨false, reqs, fs⟩
  | remaining + 1, reqs, fs =>
    let t := download_file_attempt content dest chunkSize (envs reqs) fs
    if t.success then ⟨true, reqs + 1, t.fs⟩
    else download_file_loop content dest chunkSize envs remaining (reqs + 1) t.fs

/-- `XiaoyuzhouDownloader.download_file` (downloader.py lines 129-157):
empty URL fails at once; an existing destination short-circuits as
success; otherwise up to `max_retries + 1` attempts are made. -/
def download_file (urlEmpty : Bool) (content : List Nat) (dest : String)
    (chunkSize maxRetries : Nat) (envs : Nat → AttemptEnv) (fs : FS) :
    DownloadResult :=
  if urlEmpty then ⟨false, 0, fs⟩
  else match fs dest with
    | some _ => ⟨true, 0, fs⟩
    | none => download_file_loop content dest chunkSize envs (maxRetries + 1) 0 fs

/-! ## Input-type detection (`src/utils.py`)

`extract_episode_id_from_url` / `extract_podcast_id_from_url` first test
`re.match(r'^[0-9a-f]{24}$', url_or_id)` and, failing that, run
`re.search` over a list of URL patterns in order.  Each pattern is a
literal marker followed by `([0-9a-f]{24})`; `re.search` is modelled as a
leftmost scan, and the optional groups `https?` / `(?:www\.)?` of the
first pattern as its four literal expansions tried in order. -/

/-- A character of the class `[0-9a-f]`. -/
def isLowerHexDigit (c : Char) : Bool :=
  (decide ('0' ≤ c) && decide (c ≤ '9')) || (decide ('a' ≤ c) && decide (c ≤ 'f'))

/-- `re.match(r'^[0-9a-f]{24}$', s)`: the whole string is 24 lowercase hex
characters. -/
def isFullHex24 (s : String) : Bool :=
  s.length == 24 && s.toList.all isLowerHexDigit

/-- `[0-9a-f]{24}` anchored at the start of `l`: the captured group when
the next 24 characters are lowercase hex. -/
def matchHex24At (l : List Char) : Option String :=
  let g := l.take 24
  if g.length == 24 && g.all isLowerHexDigit then some (String.mk g) else none

/-- Leftmost scan: try `p` at every start position, left to right. -/
def scanFirst (p : List Char → Option String) : List Char → Option String
  | [] => p []
  | c :: rest =>
    match p (c :: rest) with
    | some r => some r
    | none => scanFirst p rest

/-- One pattern `<marker>([0-9a-f]{24})` searched with `re.search`. -/
def searchMarkerHex (marker : String) (s : String) : Option String :=
  scanFirst
    (fun l => if marker.toList.isPrefixOf l
              then matchHex24At (l.drop marker.length) else none)
    s.toList

/-- A list of such patterns tried in order, first match wins. -/
def searchMarkersHex : List String → String → Option String
  | [], _ => none
  | m :: rest, s =>
    match searchMarkerHex m s with
    | some r => some r
    | none => searchMarkersHex rest s

/-- `r'([0-9a-f]{24})'` searched anywhere in the string. -/
def searchHex24Anywhere (s : String) : Option String :=
  scanFirst matchHex24At s.toList

/-- `extract_episode_id_from_url` (utils.py lines 115-134). -/
def extract_episode_id_from_url (s : String) : Option String :=
  if isFullHex24 s then some s
  else
    match searchMarkersHex
        ["http://xiaoyuzhoufm.com/episode/", "https://xiaoyuzhoufm.com/episode/",
         "http://www.xiaoyuzhoufm.com/episode/",
         "https://www.xiaoyuzhoufm.com/episode/"] s with
    | some r => some r
    | none =>
      match searchMarkerHex "xiaoyuzhoufm.com/episode/" s with
      | some r => some r
      | none => searchMarkerHex "/episode/" s

/-- `extract_podcast_id_from_url` (utils.py lines 72-91); its last pattern
accepts a 24-hex substring anywhere. -/
def extract_podcast_id_from_url (s : String) : Option String :=
  if isFullHex24 s then some s
  else
    match searchMarkersHex
        ["http://xiaoyuzhoufm.com/podcast/", "https://xiaoyuzhoufm.com/podcast/",
         "http://www.xiaoyuzhoufm.com/podcast/",
         "https://www.xiaoyuzhoufm.com/podcast/"] s with
    | some r => some r
    | none =>
      match searchMarkerHex "xiaoyuzhoufm.com/podcast/" s with
      | some r => some r
      | none =>
        match searchMarkerHex "/podcast/" s with
        | some r => some r
        | none => searchHex24Anywhere s

/-- `detect_input_type` (utils.py lines 137-149). -/
def detect_input_type (s : String) : String × Option String :=
  match extract_episode_id_from_url s with
  | some e => ("episode", some e)
  | none =>
    match extract_podcast_id_from_url s with
    | some p => ("podcast", some p)
    | none => ("unknown", none)

/-! ## Claims -/

/-- The destination path differs from its provisional path. -/
theorem ne_tmpPath (dest : String) : dest ≠ tmpPath dest := by
  intro h
  have h' := congrArg String.length h
  rw [tmpPath, String.length_append] at h'
  have h4 : (".tmp" : String).length = 4 := rfl
  omega

/-- Concatenating the chunks of the streamed body reassembles the body. -/
theorem flatten_chunksOf (k : Nat) (hk : 0 < k) (l : List Nat) :
    (chunksOf k l).flatten = l := by
  rw [chunksOf]
  split
  · rename_i h
    rcases h with h | h
    · simp [List.isEmpty_iff.mp h]
    · omega
  · rename_i h
    simp only [List.flatten_cons]
    rw [flatten_chunksOf k hk (l.drop k)]
    exact List.take_append_drop k l
termination_by l.length
decreasing_by
  rename_i h
  simp only [not_or, List.isEmpty_iff] at h
  have hl : 0 < l.length := List.length_pos.mpr h.1
  simpa using Nat.sub_lt hl hk

/-- C1: for every request issued through the transport client that receives
a 401 response, at most one credential refresh is attempted and at most one
retry of the original request is issued (at most two requests total); if
the refresh succeeds the result of that single retry is returned, even if
it is again a 401, and if the refresh fails (or no handler is installed)
the original 401 response is returned unchanged. -/
theorem transport_single_refresh_single_retry
    (hasHandler : Bool) (overrideToken : Option String) (statuses : Nat → Nat)
    (refreshResp : RefreshOutcome) (s : SysState) (h : statuses 0 = 401) :
    (make_request_with_retry hasHandler overrideToken statuses refreshResp s).refreshAttempts ≤ 1 ∧
    (make_request_with_retry hasHandler overrideToken statuses refreshResp s).sentTokens.length ≤ 2 ∧
    (make_request_with_retry hasHandler overrideToken statuses refreshResp s).result =
      (if hasHandler = true ∧ (refresh_access_token s refreshResp).1 = true
       then statuses 1 else 401) := by
  unfold make_request_with_retry
  cases hasHandler <;>
    rcases hr : refresh_access_token s refreshResp with ⟨ok, s'⟩ <;>
    cases ok <;> simp [h, hr]

/-- Witness for C1 at a concrete 401 scenario: retry after a successful
refresh returns the retried response (status 200 here). -/
theorem transport_single_refresh_single_retry_witness :
    (make_request_with_retry true none (fun i => if i = 0 then 401 else 200)
        (.httpResp 200 (some "t1") (some "r1"))
        ⟨some "t0", some "r0", some "d0", some "t0", some "d0",
         some "t0", some "d0", none⟩).refreshAttempts ≤ 1 ∧
    (make_request_with_retry true none (fun i => if i = 0 then 401 else 200)
        (.httpResp 200 (some "t1") (some "r1"))
        ⟨some "t0", some "r0", some "d0", some "t0", some "d0",
         some "t0", some "d0", none⟩).sentTokens.length ≤ 2 ∧
    (make_request_with_retry true none (fun i => if i = 0 then 401 else 200)
        (.httpResp 200 (some "t1") (some "r1"))
        ⟨some "t0", some "r0", some "d0", some "t0", some "d0",
         some "t0", some "d0", none⟩).result =
      (if (true = true) ∧ ((refresh_access_token
            ⟨some "t0", some "r0", some "d0", some "t0", some "d0",
             some "t0", some "d0", none⟩
            (.httpResp 200 (some "t1") (some "r1"))).1 = true)
       then (fun i : Nat => if i = 0 then 401 else 200) 1 else 401) :=
  transport_single_refresh_single_retry true none
    (fun i => if i = 0 then 401 else 200)
    (.httpResp 200 (some "t1") (some "r1"))
    ⟨some "t0", some "r0", some "d0", some "t0", some "d0",
     some "t0", some "d0", none⟩ (by decide)

/-- C2: in every transfer attempt, all streamed bytes are written only to
the provisional partial file `dest ++ ".tmp"`; the destination is created
only by the rename that follows a completely streamed transfer (on
success the last file-system event is that rename), and any failed attempt
leaves the destination entry of the file system unchanged. -/
theorem destination_never_partial
    (content : List Nat) (dest : String) (chunkSize : Nat) (env : AttemptEnv)
    (fs : FS) :
    writesOnlyTo (tmpPath dest)
      (download_file_attempt content dest chunkSize env fs).events = true ∧
    ((download_file_attempt content dest chunkSize env fs).success = true →
      (download_file_attempt content dest chunkSize env fs).events.getLast? =
        some (.rename (tmpPath dest) dest)) ∧
    ((download_file_attempt content dest chunkSize env fs).success = false →
      (download_file_attempt content dest chunkSize env fs).fs dest = fs dest) := by
  have hne := ne_tmpPath dest
  cases env with
  | httpError => simp [download_file_attempt, writesOnlyTo]
  | interrupted k =>
      refine ⟨?_, ?_, ?_⟩
      · simp only [download_file_attempt, writesOnlyTo, List.all_eq_true]
        intro x hx
        obtain ⟨c, hc, rfl⟩ := List.mem_map.mp hx
        simp
      · simp [download_file_attempt]
      · intro _
        simp only [download_file_attempt]
        rw [if_neg hne]
  | complete =>
      refine ⟨?_, ?_, ?_⟩
      · simp [download_file_attempt, writesOnlyTo, List.all_map, Function.comp,
          List.all_append]
      · intro _
        simp [download_file_attempt, List.getLast?_append_cons]
      · intro h
        simp [download_file_attempt] at h
/-- Witness for C2: a concrete interrupted attempt (2 chunks of a 5-byte
body written before the fault) leaves the destination entry unchanged. -/
theorem destination_never_partial_witness :
    writesOnlyTo (tmpPath "ep.m4a")
      (download_file_attempt [1, 2, 3, 4, 5] "ep.m4a" 2 (.interrupted 2)
        (fun _ => none)).events = true ∧
    ((download_file_attempt [1, 2, 3, 4, 5] "ep.m4a" 2 (.interrupted 2)
        (fun _ => none)).success = true →
      (download_file_attempt [1, 2, 3, 4, 5] "ep.m4a" 2 (.interrupted 2)
        (fun _ => none)).events.getLast? =
        some (.rename (tmpPath "ep.m4a") "ep.m4a")) ∧
    ((download_file_attempt [1, 2, 3, 4, 5] "ep.m4a" 2 (.interrupted 2)
        (fun _ => none)).success = false →
      (download_file_attempt [1, 2, 3, 4, 5] "ep.m4a" 2 (.interrupted 2)
        (fun _ => none)).fs "ep.m4a" = (fun _ => none : FS) "ep.m4a") :=
  destination_never_partial [1, 2, 3, 4, 5] "ep.m4a" 2 (.interrupted 2)
    (fun _ => none)

/-- C6: with a partial file holding the first `n` of the resource's `m`
bytes (`n < m`), the attempt sends `Range: bytes=n-`, appends the served
suffix to the partial file, and the finalized destination holds exactly
the full resource — byte-for-byte what a fresh, unresumed transfer of the
same resource produces. -/
theorem resumed_transfer_identical
    (content : List Nat) (dest : String) (chunkSize n : Nat) (fs : FS)
    (hchunk : 0 < chunkSize)
    (htmp : fs (tmpPath dest) = some (content.take n))
    (hn : n < content.length) :
    (download_file_attempt content dest chunkSize .complete fs).rangeStart =
      some n ∧
    (download_file_attempt content dest chunkSize .complete fs).fs dest =
      some content ∧
    ∀ fs0 : FS, fs0 (tmpPath dest) = none →
      (download_file_attempt content dest chunkSize .complete fs0).fs dest =
        some content := by
  have hlen : (content.take n).length = n := by
    rw [List.length_take]
    omega
  refine ⟨?_, ?_, ?_⟩
  · simp [download_file_attempt, htmp, hlen]
  · simp [download_file_attempt, htmp, hlen, flatten_chunksOf chunkSize hchunk,
      List.take_append_drop]
  · intro fs0 h0
    simp [download_file_attempt, h0, flatten_chunksOf chunkSize hchunk]

/-- Witness for C6: resuming a 5-byte resource from a 2-byte partial file. -/
theorem resumed_transfer_identical_witness :
    (download_file_attempt [1, 2, 3, 4, 5] "ep.m4a" 8192 .complete
        (fun p => if p = tmpPath "ep.m4a" then some [1, 2] else none)).rangeStart =
      some 2 ∧
    (download_file_attempt [1, 2, 3, 4, 5] "ep.m4a" 8192 .complete
        (fun p => if p = tmpPath "ep.m4a" then some [1, 2] else none)).fs "ep.m4a" =
      some [1, 2, 3, 4, 5] ∧
    ∀ fs0 : FS, fs0 (tmpPath "ep.m4a") = none →
      (download_file_attempt [1, 2, 3, 4, 5] "ep.m4a" 8192 .complete fs0).fs
          "ep.m4a" = some [1, 2, 3, 4, 5] :=
  resumed_transfer_identical [1, 2, 3, 4, 5] "ep.m4a" 8192 2
    (fun p => if p = tmpPath "ep.m4a" then some [1, 2] else none)
    (by decide) (by decide) (by decide)

/-- C7: for a transfer task (nonempty URL) whose destination file already
exists, `download_file` reports success at once, issues zero GET requests
and leaves the file system unchanged — re-running a completed download is
idempotent. -/
theorem existing_destination_short_circuits
    (content : List Nat) (dest : String) (chunkSize maxRetries : Nat)
    (envs : Nat → AttemptEnv) (fs : FS) (b : List Nat) (h : fs dest = some b) :
    download_file false content dest chunkSize maxRetries envs fs =
      ⟨true, 0, fs⟩ := by
  simp [download_file, h]

/-- Witness for C7 at a concrete file system with the destination present. -/
theorem existing_destination_short_circuits_witness :
    download_file false [9, 9, 9] "ep.m4a" 8192 3 (fun _ => .complete)
        (fun p => if p = "ep.m4a" then some [1, 2] else none) =
      ⟨true, 0, fun p => if p = "ep.m4a" then some [1, 2] else none⟩ :=
  existing_destination_short_circuits [9, 9, 9] "ep.m4a" 8192 3
    (fun _ => .complete) (fun p => if p = "ep.m4a" then some [1, 2] else none)
    [1, 2] (by decide)

/-- C10: every bare 24-character lowercase-hex identifier is classified as
an episode identifier (episode extraction runs first and accepts bare
ids), never as a podcast identifier. -/
theorem bare_hex_id_detected_as_episode (s : String)
    (h : isFullHex24 s = true) :
    detect_input_type s = ("episode", some s) ∧
    (detect_input_type s).1 ≠ "podcast" := by
  have h1 : extract_episode_id_from_url s = some s := by
    simp [extract_episode_id_from_url, h]
  refine ⟨?_, ?_⟩ <;> simp [detect_input_type, h1]

/-- Witness for C10 at a concrete bare 24-hex identifier. -/
theorem bare_hex_id_detected_as_episode_witness :
    detect_input_type "0123456789abcdef01234567" =
      ("episode", some "0123456789abcdef01234567") ∧
    (detect_input_type "0123456789abcdef01234567").1 ≠ "podcast" :=
  bare_hex_id_detected_as_episode "0123456789abcdef01234567" (by decide)

/-- C9: a refresh attempt that fails for any reason other than receiving a
new access token (network exception, non-200 status, or a 200 response
lacking a new access token) reports failure and leaves the whole state —
in-memory access/refresh token pair, api/session copies, and the persisted
credentials file — unchanged. -/
theorem refresh_failure_preserves_state (s : SysState) (resp : RefreshOutcome)
    (h : refreshFailureResponse resp = true) :
    refresh_access_token s resp = (false, s) := by
  cases resp with
  | exn => cases hrt : s.authRefreshToken <;> simp [refresh_access_token, hrt]
  | httpResp status newAccess newRefresh =>
    cases hrt : s.authRefreshToken with
    | none => simp [refresh_access_token, hrt]
    | some rt =>
      simp only [refreshFailureResponse, Bool.or_eq_true, decide_eq_true_eq,
        Option.isNone_iff_eq_none] at h
      rcases h with h | h
      · simp [refresh_access_token, hrt, h]
      · subst h
        simp only [refresh_access_token, hrt]
        split <;> rfl

/-- Witness for C9 at a concrete failing refresh (HTTP 500). -/
theorem refresh_failure_preserves_state_witness :
    refresh_access_token
      ⟨some "t0", some "r0", some "d0", some "t0", some "d0",
       some "t0", some "d0", none⟩
      (.httpResp 500 (some "t1") none) =
    (false, ⟨some "t0", some "r0", some "d0", some "t0", some "d0",
             some "t0", some "d0", none⟩) :=
  refresh_failure_preserves_state _ _ (by decide)

/-- C3 (code bug): after a refresh yields a new access token "t1", the
immediate retry issued by `get_episode_info` still carries the stale token
"t0" — the per-request `headers=` kwarg captured before the 401 overrides
the refreshed session header — while the session header (and hence the
retry of `get_episodes_page`, which passes no per-request headers) does
carry "t1". -/
theorem stale_token_on_get_episode_info_retry :
    (get_episode_info (fun i => if i = 0 then 401 else 200)
        (.httpResp 200 (some "t1") (some "r1"))
        ⟨some "t0", some "r0", some "d0", some "t0", some "d0",
         some "t0", some "d0", none⟩).sentTokens = [some "t0", some "t0"] ∧
    (get_episode_info (fun i => if i = 0 then 401 else 200)
        (.httpResp 200 (some "t1") (some "r1"))
        ⟨some "t0", some "r0", some "d0", some "t0", some "d0",
         some "t0", some "d0", none⟩).state.sessionAccessToken = some "t1" ∧
    (some "t0" : Option String) ≠ some "t1" ∧
    (get_episodes_page_request (fun i => if i = 0 then 401 else 200)
        (.httpResp 200 (some "t1") (some "r1"))
        ⟨some "t0", some "r0", some "d0", some "t0", some "d0",
         some "t0", some "d0", none⟩).sentTokens = [some "t0", some "t1"] := by
  decide

/-- C4 counterexample: with a first page of 25 items followed by a failing
page fetch, the download operation does not abort — the partial catalog
(reversed, oldest first) is handed to the sequential transfer loop. -/
theorem harvest_failure_still_downloads_counterexample :
    (download_operation
        (fun i => if i = 0 then .page (mkEpisodes 0 25) else .failure)
        none 10).2 = some (mkEpisodes 0 25).reverse ∧
    (download_operation
        (fun i => if i = 0 then .page (mkEpisodes 0 25) else .failure)
        none 10).2 ≠ none := by
  decide

/-- C4 amended: if a page fetch fails during harvesting, harvesting stops
and returns the partial sequence (with no error marker), and the download
operation proceeds to transfer exactly that partial catalog (in reverse,
oldest first) rather than aborting. -/
theorem harvest_failure_partial_sequence_downloaded
    (items : List Episode) (h15 : 15 ≤ items.length) :
    get_all_episodes (fun i => if i = 0 then .page items else .failure) none 10 =
      ⟨items, 2⟩ ∧
    (download_operation (fun i => if i = 0 then .page items else .failure)
        none 10).2 = some items.reverse := by
  have hne : items ≠ [] := by
    intro h
    rw [h] at h15
    simp at h15
  have hie : items.isEmpty = false := by
    cases items with
    | nil => exact absurd rfl hne
    | cons a l => rfl
  have hlt : ¬ items.length < 15 := Nat.not_lt.mpr h15
  have h1 : get_all_episodes (fun i => if i = 0 then .page items else .failure)
      none 10 = ⟨items, 2⟩ := by
    simp [get_all_episodes, get_all_episodes_aux, hie, hlt]
  refine ⟨h1, ?_⟩
  simp [download_operation, h1, download_podcast_sequence, hie]

/-- Witness for the amended C4 at a concrete 25-item first page. -/
theorem harvest_failure_partial_sequence_downloaded_witness :
    get_all_episodes
        (fun i => if i = 0 then .page (mkEpisodes 0 25) else .failure) none 10 =
      ⟨mkEpisodes 0 25, 2⟩ ∧
    (download_operation
        (fun i => if i = 0 then .page (mkEpisodes 0 25) else .failure)
        none 10).2 = some (mkEpisodes 0 25).reverse :=
  harvest_failure_partial_sequence_downloaded (mkEpisodes 0 25) (by decide)

/-- C5 (code bug): a retrieved page of 20 items — fewer than the requested
page size of 25 — does not stop harvesting: the code's end-of-data check
is hard-coded at 15, so a second page request is issued (`requests = 2`). -/
theorem short_page_does_not_stop_harvesting :
    (mkEpisodes 0 20).length < requestedPageLimit ∧
    get_all_episodes
        (fun i => if i = 0 then .page (mkEpisodes 0 20) else .page [])
        none 10 = ⟨mkEpisodes 0 20, 2⟩ := by
  decide

/-- C8: over server pages of sizes [25, 25, 10], harvesting with no item
limit returns exactly the 60 items in server-return order using exactly 3
page requests; with `max_episodes = 40` it returns exactly the first 40
items using exactly 2 page requests. -/
theorem pagination_scenario_25_25_10 :
    get_all_episodes
        (fun i => if i = 0 then .page (mkEpisodes 0 25)
                  else if i = 1 then .page (mkEpisodes 25 25)
                  else if i = 2 then .page (mkEpisodes 50 10)
                  else .page []) none 10 =
      ⟨mkEpisodes 0 25 ++ mkEpisodes 25 25 ++ mkEpisodes 50 10, 3⟩ ∧
    (mkEpisodes 0 25 ++ mkEpisodes 25 25 ++ mkEpisodes 50 10).length = 60 ∧
    get_all_episodes
        (fun i => if i = 0 then .page (mkEpisodes 0 25)
                  else if i = 1 then .page (mkEpisodes 25 25)
                  else if i = 2 then .page (mkEpisodes 50 10)
                  else .page []) (some 40) 10 =
      ⟨(mkEpisodes 0 25 ++ mkEpisodes 25 25 ++ mkEpisodes 50 10).take 40, 2⟩ := by
  decide

end XyzDl
